import Mathlib

/-!
Verification development for the PHM2 CRM/quote platform (TypeScript source).

Shallow embedding conventions:
* JavaScript numbers (money amounts, tax rates) are modelled as exact
  rationals `ℚ`; database ids and timestamps as `Nat`.
* Strings are either Lean `String`s or, where character-level processing
  matters (quote numbers), `List Char`.
* Database tables are lists of records; a route handler is a function from
  the table state and the authenticated caller to `Except AppErr` of the
  new state and the response payload.
* Optional / possibly-`undefined` JavaScript values are `Option`; the
  JavaScript `x || y` operator on numbers is `jsOr` (`0` is falsy).
* Thrown error objects are values of `AppErr`.  The `utils/errors.ts`
  class `AppError` has constructor parameters `(statusCode, message)`;
  since JavaScript does not check argument types at run time, both fields
  are modelled with the dynamic value type `JsVal` so that call sites that
  pass the arguments in either order can be embedded faithfully.
-/

/-- Dynamic JavaScript value: a number or a string (enough for the error
fields that appear in the source). -/
inductive JsVal where
  | num : Int → JsVal
  | str : String → JsVal
  deriving DecidableEq, Repr

/-- Embedding of the `AppError` class hierarchy of `utils/errors.ts`:
an error object carries its class name, a `statusCode` field and a
`message` field (both dynamically typed, as in JavaScript). -/
structure AppErr where
  name : String
  statusCode : JsVal
  message : JsVal
  deriving DecidableEq, Repr

/-- `new AppError(statusCode, message)` — the base-class constructor
assigns the first argument to `statusCode` and the second to `message`. -/
def mkAppError (statusCode message : JsVal) : AppErr :=
  { name := "AppError", statusCode := statusCode, message := message }

/-- `new ValidationError(message)` — fixes `statusCode` to 400. -/
def mkValidationError (message : String) : AppErr :=
  { name := "ValidationError", statusCode := JsVal.num 400, message := JsVal.str message }

/-- `new UnauthorizedError(message)` — fixes `statusCode` to 401. -/
def mkUnauthorizedError (message : String) : AppErr :=
  { name := "UnauthorizedError", statusCode := JsVal.num 401, message := JsVal.str message }

/-- `new ForbiddenError(message)` — fixes `statusCode` to 403. -/
def mkForbiddenError (message : String) : AppErr :=
  { name := "ForbiddenError", statusCode := JsVal.num 403, message := JsVal.str message }

/-- `new NotFoundError(message)` — fixes `statusCode` to 404. -/
def mkNotFoundError (message : String) : AppErr :=
  { name := "NotFoundError", statusCode := JsVal.num 404, message := JsVal.str message }

/-- `new ConflictError(message)` — fixes `statusCode` to 409. -/
def mkConflictError (message : String) : AppErr :=
  { name := "ConflictError", statusCode := JsVal.num 409, message := JsVal.str message }

/-- `middleware/errorHandler.ts`: for an `AppError` instance the HTTP
response status is taken from the error's `statusCode` field. -/
def errorHandlerStatus (e : AppErr) : JsVal := e.statusCode

/-- JavaScript `a || b` for numbers: `0` (and only `0`, in our rational
model) is falsy. -/
def jsOr (a b : ℚ) : ℚ := if a = 0 then b else a

/-- JavaScript `a || b` where `a` may be `undefined` (modelled `none`). -/
def jsOrOpt (a : Option ℚ) (b : ℚ) : ℚ :=
  match a with
  | none => b
  | some x => jsOr x b

/-- One element of the `lines` array accepted by `createQuoteSchema`
(after zod validation, so `discount` has received its default `0` when it
was omitted). -/
structure QuoteLineInput where
  productId : Option Nat
  description : String
  quantity : ℚ
  unitPrice : ℚ
  discount : ℚ
  notes : Option String
  deriving DecidableEq, Repr

/-- Result record of `calculateQuoteTotals`. -/
structure QuoteTotals where
  subtotal : ℚ
  taxAmount : ℚ
  total : ℚ
  deriving DecidableEq, Repr

/-- `routes/quotes.ts` — `calculateQuoteTotals(lines, taxRate)`:
`reduce` over the lines accumulating `quantity * unitPrice - discount`,
then `taxAmount = subtotal * taxRate / 100` and
`total = subtotal + taxAmount`. -/
def calculateQuoteTotals (lines : List QuoteLineInput) (taxRate : ℚ) : QuoteTotals :=
  let subtotal := lines.foldl (fun sum line => sum + (line.quantity * line.unitPrice - line.discount)) 0
  let taxAmount := (subtotal * taxRate) / 100
  { subtotal := subtotal, taxAmount := taxAmount, total := subtotal + taxAmount }

/-- The per-line contribution `quantity × unitPrice − discount`. -/
def lineContribution (l : QuoteLineInput) : ℚ := l.quantity * l.unitPrice - l.discount

theorem foldl_add_eq_sum (f : QuoteLineInput → ℚ) (l : List QuoteLineInput) (a : ℚ) :
    l.foldl (fun s x => s + f x) a = a + (l.map f).sum := by
  induction l generalizing a with
  | nil => simp
  | cons x xs ih => simp [ih, add_assoc]

/-- C1: for every list of quote lines with non-negative quantity, unit
price and discount, and every tax rate in `[0,100]`,
`calculateQuoteTotals` returns `subtotal = Σ (quantity·unitPrice − discount)`,
`taxAmount = subtotal · taxRate / 100` and `total = subtotal + taxAmount`;
each line contributes `quantity·unitPrice − discount` unclamped, so a
discount exceeding the gross contributes a negative amount. -/
theorem calculateQuoteTotals_spec (lines : List QuoteLineInput) (taxRate : ℚ)
    (hq : ∀ l ∈ lines, 0 ≤ l.quantity) (hu : ∀ l ∈ lines, 0 ≤ l.unitPrice)
    (hd : ∀ l ∈ lines, 0 ≤ l.discount) (ht0 : 0 ≤ taxRate) (ht1 : taxRate ≤ 100) :
    (calculateQuoteTotals lines taxRate).subtotal = (lines.map lineContribution).sum ∧
    (calculateQuoteTotals lines taxRate).taxAmount =
      (lines.map lineContribution).sum * taxRate / 100 ∧
    (calculateQuoteTotals lines taxRate).total =
      (lines.map lineContribution).sum + (lines.map lineContribution).sum * taxRate / 100 ∧
    ∀ l ∈ lines, lineContribution l = l.quantity * l.unitPrice - l.discount := by
  have hsub : (calculateQuoteTotals lines taxRate).subtotal = (lines.map lineContribution).sum := by
    simp only [calculateQuoteTotals, lineContribution]
    simpa using foldl_add_eq_sum (fun l => l.quantity * l.unitPrice - l.discount) lines 0
  refine ⟨hsub, ?_, ?_, fun l _ => rfl⟩
  · simp only [calculateQuoteTotals] at hsub ⊢
    rw [hsub]
  · simp only [calculateQuoteTotals] at hsub ⊢
    rw [hsub]

/-- Witness for C1 at the spec's own example: one line `1 × 1200 − 0` at
tax rate 20 gives subtotal 1200, tax 240, total 1440; plus a line whose
discount exceeds the gross, contributing a negative amount. -/
theorem calculateQuoteTotals_spec_witness :
    (calculateQuoteTotals [⟨none, "Boiler", 1, 1200, 0, none⟩] 20).subtotal = 1200 ∧
    (calculateQuoteTotals [⟨none, "Boiler", 1, 1200, 0, none⟩] 20).taxAmount = 240 ∧
    (calculateQuoteTotals [⟨none, "Boiler", 1, 1200, 0, none⟩] 20).total = 1440 ∧
    lineContribution ⟨none, "Credit", 1, 10, 25, none⟩ = -15 := by
  have h := calculateQuoteTotals_spec [⟨none, "Boiler", 1, 1200, 0, none⟩] 20
    (by intro l hl; simp at hl; subst hl; norm_num)
    (by intro l hl; simp at hl; subst hl; norm_num)
    (by intro l hl; simp at hl; subst hl; norm_num)
    (by norm_num) (by norm_num)
  obtain ⟨h1, h2, h3, _⟩ := h
  refine ⟨?_, ?_, ?_, by norm_num [lineContribution]⟩
  · rw [h1]; norm_num [lineContribution]
  · rw [h2]; norm_num [lineContribution]
  · rw [h3]; norm_num [lineContribution]

/-- The character for a decimal digit (`0 ≤ d ≤ 9`). -/
def digitChar (d : Nat) : Char :=
  match d with
  | 0 => '0' | 1 => '1' | 2 => '2' | 3 => '3' | 4 => '4'
  | 5 => '5' | 6 => '6' | 7 => '7' | 8 => '8' | _ => '9'

/-- Fuel-driven core of decimal printing (the standard library prints
numbers the same way); `fuel > n` always suffices. -/
def natDigitsAux : Nat → Nat → List Char
  | 0, _ => []
  | fuel + 1, n =>
    if n < 10 then [digitChar n]
    else natDigitsAux fuel (n / 10) ++ [digitChar (n % 10)]

/-- JavaScript `n.toString()` for a non-negative integer: its decimal
digits, most significant first. -/
def natDigits (n : Nat) : List Char := natDigitsAux (n + 1) n

/-- JavaScript `parseInt` on a string of decimal digits. -/
def parseDigits (l : List Char) : Nat :=
  l.foldl (fun a c => a * 10 + (c.toNat - 48)) 0

/-- JavaScript `s.padStart(3, '0')`. -/
def padStart3 (l : List Char) : List Char := List.replicate (3 - l.length) '0' ++ l

theorem digitChar_toNat (d : Nat) (h : d < 10) : (digitChar d).toNat = 48 + d := by
  interval_cases d <;> rfl

theorem digitChar_isDigit (d : Nat) (h : d < 10) : (digitChar d).isDigit = true := by
  interval_cases d <;> rfl

theorem natDigitsAux_ne_nil (fuel n : Nat) (h : n < fuel) : natDigitsAux fuel n ≠ [] := by
  match fuel with
  | 0 => omega
  | fuel + 1 =>
    simp only [natDigitsAux]
    split
    · simp
    · simp

theorem natDigitsAux_all_digits (fuel n : Nat) (h : n < fuel) :
    ∀ c ∈ natDigitsAux fuel n, c.isDigit = true := by
  induction fuel generalizing n with
  | zero => omega
  | succ fuel ih =>
    intro c hc
    simp only [natDigitsAux] at hc
    split at hc
    · simp at hc
      subst hc
      exact digitChar_isDigit n (by omega)
    · rename_i hn
      rcases List.mem_append.mp hc with h1 | h2
      · exact ih (n / 10) (by omega) c h1
      · simp at h2
        subst h2
        exact digitChar_isDigit (n % 10) (by omega)

theorem parseDigits_from (a : Nat) (l : List Char) :
    l.foldl (fun a c => a * 10 + (c.toNat - 48)) a =
      List.foldl (fun a c => a * 10 + (c.toNat - 48)) 0 l + a * 10 ^ l.length := by
  induction l generalizing a with
  | nil => simp
  | cons c cs ih =>
    simp only [List.foldl_cons, List.length_cons]
    rw [ih (a * 10 + (c.toNat - 48)), ih (0 * 10 + (c.toNat - 48))]
    ring

theorem parseDigits_append_singleton (l : List Char) (c : Char) :
    parseDigits (l ++ [c]) = parseDigits l * 10 + (c.toNat - 48) := by
  simp [parseDigits, List.foldl_append]

theorem parseDigits_natDigitsAux (fuel n : Nat) (h : n < fuel) :
    parseDigits (natDigitsAux fuel n) = n := by
  induction fuel generalizing n with
  | zero => omega
  | succ fuel ih =>
    simp only [natDigitsAux]
    split
    · rename_i hn
      simp [parseDigits, digitChar_toNat n hn]
    · rename_i hn
      rw [parseDigits_append_singleton, ih (n / 10) (by omega),
        digitChar_toNat (n % 10) (by omega)]
      omega

theorem parseDigits_natDigits (n : Nat) : parseDigits (natDigits n) = n :=
  parseDigits_natDigitsAux (n + 1) n (by omega)

theorem natDigits_ne_nil (n : Nat) : natDigits n ≠ [] :=
  natDigitsAux_ne_nil (n + 1) n (by omega)

theorem natDigits_all_digits (n : Nat) : ∀ c ∈ natDigits n, c.isDigit = true :=
  natDigitsAux_all_digits (n + 1) n (by omega)

theorem parseDigits_replicate_zero (k : Nat) (l : List Char) :
    parseDigits (List.replicate k '0' ++ l) = parseDigits l := by
  induction k with
  | zero => simp
  | succ k ih => simpa [List.replicate_succ, parseDigits] using ih

theorem parseDigits_padStart3 (l : List Char) : parseDigits (padStart3 l) = parseDigits l :=
  parseDigits_replicate_zero _ l

theorem padStart3_all_digits (l : List Char) (h : ∀ c ∈ l, c.isDigit = true) :
    ∀ c ∈ padStart3 l, c.isDigit = true := by
  intro c hc
  rcases List.mem_append.mp hc with h1 | h2
  · have := List.eq_of_mem_replicate h1
    subst this
    rfl
  · exact h c h2

theorem padStart3_ne_nil (l : List Char) (h : l ≠ []) : padStart3 l ≠ [] := by
  simp [padStart3, h]

theorem takeWhile_append_stop (p : Char → Bool) (xs : List Char) (y : Char) (ys : List Char)
    (hx : ∀ c ∈ xs, p c = true) (hy : p y = false) :
    (xs ++ y :: ys).takeWhile p = xs := by
  induction xs with
  | nil => simp [List.takeWhile, hy]
  | cons c cs ih =>
    have hc : p c = true := hx c (by simp)
    simp only [List.cons_append, List.takeWhile_cons, hc, if_true]
    rw [ih (fun d hd => hx d (by simp [hd]))]

theorem dropWhile_append_stop (p : Char → Bool) (xs : List Char) (y : Char) (ys : List Char)
    (hx : ∀ c ∈ xs, p c = true) (hy : p y = false) :
    (xs ++ y :: ys).dropWhile p = y :: ys := by
  induction xs with
  | nil => simp [List.dropWhile, hy]
  | cons c cs ih =>
    have hc : p c = true := hx c (by simp)
    simp only [List.cons_append, List.dropWhile_cons, hc, if_true]
    exact ih (fun d hd => hx d (by simp [hd]))

theorem takeWhile_all (p : Char → Bool) (xs : List Char) (hx : ∀ c ∈ xs, p c = true) :
    xs.takeWhile p = xs := by
  induction xs with
  | nil => rfl
  | cons c cs ih =>
    have hc : p c = true := hx c (by simp)
    simp only [List.takeWhile_cons, hc, if_true]
    rw [ih (fun d hd => hx d (by simp [hd]))]

/-- The quote number string built by `generateQuoteNumber`:
`QUO-{year}-{seq.toString().padStart(3,'0')}`. -/
def mkQuoteNumber (year n : Nat) : List Char :=
  'Q' :: 'U' :: 'O' :: '-' :: (natDigits year ++ '-' :: padStart3 (natDigits n))

/-- The fixed part of the SQL pattern `QUO-{year}-%` (everything before
the `%` wildcard). -/
def yearPattern (year : Nat) : List Char :=
  'Q' :: 'U' :: 'O' :: '-' :: (natDigits year ++ ['-'])

/-- `ilike` with a trailing `%`: case-insensitive prefix test. -/
def matchesYearPattern (year : Nat) (s : List Char) : Bool :=
  ((yearPattern year).map Char.toLower).isPrefixOf (s.map Char.toLower)

/-- The regular expression `QUO-\d+-(\d+)` applied to a quote number:
after the literal `QUO-`, a maximal non-empty run of digits, a dash, then
the captured maximal non-empty run of digits, fed to `parseInt`. -/
def extractSuffix (s : List Char) : Option Nat :=
  match s with
  | 'Q' :: 'U' :: 'O' :: '-' :: rest =>
    if (rest.takeWhile Char.isDigit).isEmpty then none
    else
      match rest.dropWhile Char.isDigit with
      | '-' :: rest2 =>
        if (rest2.takeWhile Char.isDigit).isEmpty then none
        else some (parseDigits (rest2.takeWhile Char.isDigit))
      | _ => none
  | _ => none

/-- `routes/quotes.ts` — `generateQuoteNumber`: the account's quotes,
newest first (`orderBy createdAt desc`), are filtered by
`ilike 'QUO-{year}-%'`; `findFirst` takes the head.  If there is none the
sequence starts at 1, otherwise the numeric suffix of the latest matching
number is extracted by the regex and incremented (if the regex fails the
sequence also restarts at 1). -/
def generateQuoteNumber (year : Nat) (numbersNewestFirst : List (List Char)) : List Char :=
  match numbersNewestFirst.filter (matchesYearPattern year) with
  | [] => mkQuoteNumber year 1
  | q :: _ =>
    match extractSuffix q with
    | some s => mkQuoteNumber year (s + 1)
    | none => mkQuoteNumber year 1

/-- The newest-first list of quote numbers of a fresh account after `n`
serial quote creations in year `year` (each creation stores the number the
generator produced; newest quotes sort first). -/
def serialNumbers (year : Nat) : Nat → List (List Char)
  | 0 => []
  | n + 1 => generateQuoteNumber year (serialNumbers year n) :: serialNumbers year n

theorem extractSuffix_mkQuoteNumber (year n : Nat) :
    extractSuffix (mkQuoteNumber year n) = some n := by
  have hyd := natDigits_all_digits year
  have hdash : Char.isDigit '-' = false := rfl
  have hpadd := padStart3_all_digits (natDigits n) (natDigits_all_digits n)
  have htake : ((natDigits year ++ '-' :: padStart3 (natDigits n)).takeWhile Char.isDigit)
      = natDigits year := takeWhile_append_stop _ _ _ _ hyd hdash
  have hdrop : ((natDigits year ++ '-' :: padStart3 (natDigits n)).dropWhile Char.isDigit)
      = '-' :: padStart3 (natDigits n) := dropWhile_append_stop _ _ _ _ hyd hdash
  have htake2 : ((padStart3 (natDigits n)).takeWhile Char.isDigit) = padStart3 (natDigits n) :=
    takeWhile_all _ _ hpadd
  simp only [mkQuoteNumber, extractSuffix, htake, hdrop, htake2]
  rw [if_neg, if_neg]
  · rw [parseDigits_padStart3, parseDigits_natDigits]
  · simp [List.isEmpty_iff, padStart3_ne_nil (natDigits n) (natDigits_ne_nil n)]
  · simp [List.isEmpty_iff, natDigits_ne_nil year]

theorem isPrefixOf_append_self (l t : List Char) : l.isPrefixOf (l ++ t) = true := by
  induction l with
  | nil => simp [List.isPrefixOf]
  | cons c cs ih => simp [List.isPrefixOf, ih]

theorem matchesYearPattern_mkQuoteNumber (year n : Nat) :
    matchesYearPattern year (mkQuoteNumber year n) = true := by
  have h : mkQuoteNumber year n = yearPattern year ++ padStart3 (natDigits n) := by
    simp [mkQuoteNumber, yearPattern]
  rw [matchesYearPattern, h, List.map_append]
  exact isPrefixOf_append_self _ _

theorem generateQuoteNumber_serial (year n : Nat) :
    generateQuoteNumber year (serialNumbers year n) = mkQuoteNumber year (n + 1) := by
  induction n with
  | zero => rfl
  | succ n ih =>
    have hhead : serialNumbers year (n + 1) =
        mkQuoteNumber year (n + 1) :: serialNumbers year n := by
      rw [serialNumbers, ih]
    rw [generateQuoteNumber, hhead]
    simp only [List.filter_cons, matchesYearPattern_mkQuoteNumber year (n + 1), if_true,
      extractSuffix_mkQuoteNumber year (n + 1)]

theorem natDigitsAux_length_le (fuel n k : Nat) (hf : n < fuel) (hk : n < 10 ^ k) (h1 : 1 ≤ k) :
    (natDigitsAux fuel n).length ≤ k := by
  induction fuel generalizing n k with
  | zero => omega
  | succ fuel ih =>
    simp only [natDigitsAux]
    split
    · simpa using h1
    · rename_i hn
      rw [List.length_append]
      simp only [List.length_cons, List.length_nil]
      have hk2 : 2 ≤ k := by
        by_contra hlt
        have : k = 1 := by omega
        subst this
        simp at hk
        omega
      have hdiv : n / 10 < 10 ^ (k - 1) := by
        apply Nat.div_lt_of_lt_mul
        calc n < 10 ^ k := hk
          _ = 10 * 10 ^ (k - 1) := by
            conv_lhs => rw [← Nat.sub_add_cancel (show 1 ≤ k by omega)]
            rw [pow_succ']
      have := ih (n / 10) (k - 1) (by omega) hdiv (by omega)
      omega

theorem padStart3_length (l : List Char) (h : l.length ≤ 3) : (padStart3 l).length = 3 := by
  simp only [padStart3, List.length_append, List.length_replicate]
  omega

/-- C3: the quote-number generator returns `QUO-{year}-001` when no quote
of the account matches `QUO-{year}-%`; otherwise it extracts the numeric
suffix `s` of the most recently created matching quote and returns
`QUO-{year}-{s+1}` zero-padded to three digits; consequently the `N`-th
quote created serially in a fresh account and year is numbered
`QUO-{year}-{N}` zero-padded to three digits (exactly three characters
while `N < 1000`), and the first is `QUO-{year}-001`. -/
theorem generateQuoteNumber_spec (year : Nat) (store : List (List Char)) :
    (store.filter (matchesYearPattern year) = [] →
      generateQuoteNumber year store = mkQuoteNumber year 1) ∧
    (∀ q rest s, store.filter (matchesYearPattern year) = q :: rest →
      extractSuffix q = some s →
      generateQuoteNumber year store = mkQuoteNumber year (s + 1)) ∧
    (∀ n, generateQuoteNumber year (serialNumbers year n) = mkQuoteNumber year (n + 1)) ∧
    mkQuoteNumber year 1 =
      'Q' :: 'U' :: 'O' :: '-' :: (natDigits year ++ '-' :: '0' :: '0' :: ['1']) ∧
    (∀ n, 0 < n → n < 1000 → (padStart3 (natDigits n)).length = 3) := by
  refine ⟨?_, ?_, fun n => generateQuoteNumber_serial year n, ?_, ?_⟩
  · intro h
    rw [generateQuoteNumber, h]
  · intro q rest s hfilter hq
    rw [generateQuoteNumber, hfilter]
    simp [hq]
  · rfl
  · intro n _ hn
    exact padStart3_length _ (natDigitsAux_length_le (n + 1) n 3 (by omega) (by norm_num; omega)
      (by norm_num))

/-- Witness for C3: in year 2026, the generator on an empty store yields
`QUO-2026-001`; a store whose latest matching number is `QUO-2026-012`
yields `QUO-2026-013`; the third serial quote is `QUO-2026-003`. -/
theorem generateQuoteNumber_spec_witness :
    generateQuoteNumber 2026 [] = mkQuoteNumber 2026 1 ∧
    generateQuoteNumber 2026 (serialNumbers 2026 2) = mkQuoteNumber 2026 3 ∧
    (padStart3 (natDigits 12)).length = 3 := by
  refine ⟨(generateQuoteNumber_spec 2026 []).1 rfl,
    (generateQuoteNumber_spec 2026 (serialNumbers 2026 2)).2.2.1 2,
    (generateQuoteNumber_spec 2026 []).2.2.2.2 12 (by norm_num) (by norm_num)⟩

/-- Row of the `customers` table (fields used by the handlers under
verification). -/
structure Customer where
  id : Nat
  accountId : Nat
  firstName : String
  lastName : String
  deriving DecidableEq, Repr

/-- Row of the `products` table (fields used by the handlers under
verification). -/
structure Product where
  id : Nat
  accountId : Nat
  sku : String
  name : String
  sellPrice : ℚ
  deriving DecidableEq, Repr

/-- Row of the `quotes` table (fields used by the handlers under
verification; audit timestamps other than `createdAt` are elided). -/
structure Quote where
  id : Nat
  accountId : Nat
  customerId : Nat
  leadId : Option Nat
  quoteNumber : List Char
  title : Option String
  status : String
  validUntil : Option Nat
  taxRate : ℚ
  subtotal : ℚ
  taxAmount : ℚ
  total : ℚ
  depositAmount : Option ℚ
  notes : Option String
  termsAndConditions : Option String
  createdBy : Nat
  createdAt : Nat
  deriving DecidableEq, Repr

/-- Row of the `quote_lines` table. -/
structure QuoteLine where
  quoteId : Nat
  productId : Option Nat
  sortOrder : Nat
  description : String
  quantity : ℚ
  unitPrice : ℚ
  discount : ℚ
  lineTotal : ℚ
  notes : Option String
  deriving DecidableEq, Repr

/-- Insert into a list sorted by `le` (used to model SQL `orderBy`). -/
def insertBy {α : Type} (le : α → α → Bool) (x : α) : List α → List α
  | [] => [x]
  | y :: ys => if le x y then x :: y :: ys else y :: insertBy le x ys

/-- Insertion sort by `le` (used to model SQL `orderBy`). -/
def sortBy {α : Type} (le : α → α → Bool) : List α → List α
  | [] => []
  | x :: xs => insertBy le x (sortBy le xs)

theorem length_insertBy {α : Type} (le : α → α → Bool) (x : α) (l : List α) :
    (insertBy le x l).length = l.length + 1 := by
  induction l with
  | nil => rfl
  | cons y ys ih =>
    simp only [insertBy]
    split
    · simp
    · simp [ih]

theorem length_sortBy {α : Type} (le : α → α → Bool) (l : List α) :
    (sortBy le l).length = l.length := by
  induction l with
  | nil => rfl
  | cons x xs ih => simp [sortBy, length_insertBy, ih]

/-- `orderBy createdAt desc` over quotes. -/
def sortByCreatedDesc (l : List Quote) : List Quote :=
  sortBy (fun a b => decide (b.createdAt ≤ a.createdAt)) l

/-- `orderBy sortOrder asc` over quote lines. -/
def sortBySortOrderAsc (l : List QuoteLine) : List QuoteLine :=
  sortBy (fun a b => decide (a.sortOrder ≤ b.sortOrder)) l

/-- `routes/customers.ts` — `GET /api/customers/:id`: `findFirst` with
`id = :id and accountId = caller`, 404 when absent. -/
def customersGetById (db : List Customer) (accountId id : Nat) : Except AppErr Customer :=
  match db.find? (fun cu => cu.id == id && cu.accountId == accountId) with
  | none => Except.error (mkNotFoundError "Customer not found")
  | some cu => Except.ok cu

/-- `routes/products.ts` — `GET /api/products/:id`: `findFirst` with
`id = :id and accountId = caller`, 404 when absent. -/
def productsGetById (db : List Product) (accountId id : Nat) : Except AppErr Product :=
  match db.find? (fun p => p.id == id && p.accountId == accountId) with
  | none => Except.error (mkNotFoundError "Product not found")
  | some p => Except.ok p

/-- `routes/quotes.ts` — `GET /api/quotes/:id`: `findFirst` with
`id = :id and accountId = caller`, returning the quote together with its
lines ordered by `sortOrder`; 404 when absent. -/
def quotesGetById (quotesDb : List Quote) (linesDb : List QuoteLine) (accountId id : Nat) :
    Except AppErr (Quote × List QuoteLine) :=
  match quotesDb.find? (fun q => q.id == id && q.accountId == accountId) with
  | none => Except.error (mkNotFoundError "Quote not found")
  | some q =>
    Except.ok (q, sortBySortOrderAsc (linesDb.filter (fun l => l.quoteId == id)))

/-- C4: an authenticated get-by-id on a tenant-scoped entity (customer,
quote, product) whose id exists but belongs to a different account fails
with `NotFoundError` (HTTP 404) — the same outcome as a nonexistent id —
and never returns the entity or a 403. -/
theorem crossTenantGetById_spec
    (cdb : List Customer) (qdb : List Quote) (ldb : List QuoteLine) (pdb : List Product)
    (accountA id : Nat)
    (hc1 : ∃ cu ∈ cdb, cu.id = id) (hc2 : ∀ cu ∈ cdb, cu.id = id → cu.accountId ≠ accountA)
    (hq1 : ∃ q ∈ qdb, q.id = id) (hq2 : ∀ q ∈ qdb, q.id = id → q.accountId ≠ accountA)
    (hp1 : ∃ p ∈ pdb, p.id = id) (hp2 : ∀ p ∈ pdb, p.id = id → p.accountId ≠ accountA) :
    customersGetById cdb accountA id = Except.error (mkNotFoundError "Customer not found") ∧
    quotesGetById qdb ldb accountA id = Except.error (mkNotFoundError "Quote not found") ∧
    productsGetById pdb accountA id = Except.error (mkNotFoundError "Product not found") ∧
    errorHandlerStatus (mkNotFoundError "Customer not found") = JsVal.num 404 ∧
    errorHandlerStatus (mkNotFoundError "Quote not found") = JsVal.num 404 ∧
    errorHandlerStatus (mkNotFoundError "Product not found") = JsVal.num 404 ∧
    errorHandlerStatus (mkNotFoundError "Customer not found") ≠ JsVal.num 403 := by
  have hcf : cdb.find? (fun cu => cu.id == id && cu.accountId == accountA) = none := by
    rw [List.find?_eq_none]
    intro cu hcu
    simp only [Bool.and_eq_true, beq_iff_eq, not_and]
    intro h
    exact fun ha => hc2 cu hcu h ha
  have hqf : qdb.find? (fun q => q.id == id && q.accountId == accountA) = none := by
    rw [List.find?_eq_none]
    intro q hq
    simp only [Bool.and_eq_true, beq_iff_eq, not_and]
    intro h
    exact fun ha => hq2 q hq h ha
  have hpf : pdb.find? (fun p => p.id == id && p.accountId == accountA) = none := by
    rw [List.find?_eq_none]
    intro p hp
    simp only [Bool.and_eq_true, beq_iff_eq, not_and]
    intro h
    exact fun ha => hp2 p hp h ha
  refine ⟨?_, ?_, ?_, rfl, rfl, rfl, by simp [errorHandlerStatus, mkNotFoundError]⟩
  · rw [customersGetById, hcf]
  · rw [quotesGetById, hqf]
  · rw [productsGetById, hpf]

/-- Concrete quote used by several witnesses: id 5 under account 2. -/
def sampleQuoteB : Quote :=
  { id := 5, accountId := 2, customerId := 9, leadId := none,
    quoteNumber := 'Q' :: 'U' :: 'O' :: '-' :: '2' :: '0' :: '2' :: '6' :: '-' :: '0' :: '0' :: ['1'],
    title := some "Boiler swap", status := "sent", validUntil := none,
    taxRate := 20, subtotal := 100, taxAmount := 20, total := 120,
    depositAmount := none, notes := none, termsAndConditions := none,
    createdBy := 3, createdAt := 50 }

/-- Witness for C4: account 1 requests id 5, which exists only under
account 2, for all three entity types. -/
theorem crossTenantGetById_spec_witness :
    customersGetById [⟨5, 2, "Ann", "Lee"⟩] 1 5 =
      Except.error (mkNotFoundError "Customer not found") ∧
    quotesGetById [sampleQuoteB] [] 1 5 =
      Except.error (mkNotFoundError "Quote not found") ∧
    productsGetById [⟨5, 2, "X1", "Valve", 9⟩] 1 5 =
      Except.error (mkNotFoundError "Product not found") := by
  have h := crossTenantGetById_spec [⟨5, 2, "Ann", "Lee"⟩] [sampleQuoteB] []
    [⟨5, 2, "X1", "Valve", 9⟩] 1 5
    ⟨⟨5, 2, "Ann", "Lee"⟩, by simp⟩
    (by intro cu hcu hid; simp at hcu; subst hcu; simp)
    ⟨sampleQuoteB, by simp, rfl⟩
    (by intro q hq hid; simp at hq; subst hq; simp [sampleQuoteB])
    ⟨⟨5, 2, "X1", "Valve", 9⟩, by simp⟩
    (by intro p hp hid; simp at hp; subst hp; simp)
  exact ⟨h.1, h.2.1, h.2.2.1⟩

/-- `createQuoteSchema.taxRate` — `z.number().min(0).max(100).default(20)`:
an omitted value becomes 20 during validation. -/
def zodDefault20 (raw : Option ℚ) : ℚ := raw.getD 20

/-- The body accepted by `createQuoteSchema` after zod validation. -/
structure CreateQuoteInput where
  customerId : Nat
  leadId : Option Nat
  title : Option String
  validUntil : Option Nat
  taxRate : ℚ
  depositAmount : Option ℚ
  notes : Option String
  termsAndConditions : Option String
  lines : List QuoteLineInput
  deriving DecidableEq, Repr

/-- The body accepted by `updateQuoteSchema` after zod validation
(`createQuoteSchema.partial()` plus `status`; every field may be absent,
and the handler's `updateData` only carries the fields listed here). -/
structure UpdateQuoteInput where
  title : Option String
  validUntil : Option Nat
  taxRate : Option ℚ
  depositAmount : Option ℚ
  notes : Option String
  termsAndConditions : Option String
  status : Option String
  lines : Option (List QuoteLineInput)
  deriving DecidableEq, Repr

/-- drizzle `.set` semantics for a nullable column: an `undefined` value
is skipped (the stored value is kept), a present value overwrites. -/
def optSet {α : Type} (newVal old : Option α) : Option α :=
  match newVal with
  | none => old
  | some v => some v

/-- The rows inserted into `quote_lines` for a list of validated input
lines: `sortOrder` is the array index and
`lineTotal = quantity * unitPrice - (discount || 0)`. -/
def mkQuoteLines (quoteId : Nat) (lines : List QuoteLineInput) : List QuoteLine :=
  lines.mapIdx (fun i line =>
    { quoteId := quoteId, productId := line.productId, sortOrder := i,
      description := line.description, quantity := line.quantity,
      unitPrice := line.unitPrice, discount := jsOr line.discount 0,
      lineTotal := line.quantity * line.unitPrice - jsOr line.discount 0,
      notes := line.notes })

/-- `routes/quotes.ts` — `POST /api/quotes`: verify the customer belongs
to the account (404 otherwise), compute totals with
`calculateQuoteTotals(data.lines, data.taxRate || 20)`, generate the
quote number, and insert the quote (tax rate `data.taxRate || 20`, status
`draft` by the schema's column default) and its lines. -/
def quotesCreate (customersDb : List Customer) (quotesDb : List Quote) (linesDb : List QuoteLine)
    (accountId userId : Nat) (data : CreateQuoteInput) (year newId now : Nat) :
    Except AppErr (List Quote × List QuoteLine × Quote) :=
  match customersDb.find? (fun cu => cu.id == data.customerId && cu.accountId == accountId) with
  | none => Except.error (mkNotFoundError "Customer not found")
  | some _ =>
    let totals := calculateQuoteTotals data.lines (jsOr data.taxRate 20)
    let quoteNumber := generateQuoteNumber year
      ((sortByCreatedDesc (quotesDb.filter (fun q => q.accountId == accountId))).map
        (fun q => q.quoteNumber))
    let quote : Quote :=
      { id := newId, accountId := accountId, customerId := data.customerId,
        leadId := data.leadId, quoteNumber := quoteNumber, title := data.title,
        status := "draft", validUntil := data.validUntil,
        taxRate := jsOr data.taxRate 20, subtotal := totals.subtotal,
        taxAmount := totals.taxAmount, total := totals.total,
        depositAmount := data.depositAmount, notes := data.notes,
        termsAndConditions := data.termsAndConditions, createdBy := userId,
        createdAt := now }
    Except.ok (quotesDb ++ [quote], linesDb ++ mkQuoteLines newId data.lines, quote)

/-- `routes/quotes.ts` — `PUT /api/quotes/:id`: find the quote in the
account (404 otherwise); when `data.lines` is present, recompute totals
with `calculateQuoteTotals(data.lines, data.taxRate || existing.taxRate)`
and replace all lines; apply `updateData` with drizzle's
skip-`undefined` semantics — note that `updateData.taxRate` is
`data.taxRate` itself, not the `||`-defaulted rate used for
the recomputation. -/
def quotesUpdate (quotesDb : List Quote) (linesDb : List QuoteLine)
    (accountId id : Nat) (data : UpdateQuoteInput) :
    Except AppErr (List Quote × List QuoteLine × Quote) :=
  match quotesDb.find? (fun q => q.id == id && q.accountId == accountId) with
  | none => Except.error (mkNotFoundError "Quote not found")
  | some existing =>
    let totals : Option QuoteTotals :=
      data.lines.map (fun ls => calculateQuoteTotals ls (jsOrOpt data.taxRate existing.taxRate))
    let updated : Quote :=
      { existing with
        title := optSet data.title existing.title,
        validUntil := optSet data.validUntil existing.validUntil,
        taxRate := data.taxRate.getD existing.taxRate,
        depositAmount := optSet data.depositAmount existing.depositAmount,
        notes := optSet data.notes existing.notes,
        termsAndConditions := optSet data.termsAndConditions existing.termsAndConditions,
        status := data.status.getD existing.status,
        subtotal := match totals with | some t => t.subtotal | none => existing.subtotal,
        taxAmount := match totals with | some t => t.taxAmount | none => existing.taxAmount,
        total := match totals with | some t => t.total | none => existing.total }
    let linesDb2 := match data.lines with
      | none => linesDb
      | some ls => (linesDb.filter (fun l => !(l.quoteId == id))) ++ mkQuoteLines id ls
    Except.ok (quotesDb.map (fun q => if q.id == id then updated else q), linesDb2, updated)

/-- JavaScript template literal `` `${original.title} (Copy)` `` where
`title` is a nullable column: `null` prints as the string `null`. -/
def jsTemplateTitle (t : Option String) : String := (t.getD "null") ++ " (Copy)"

/-- `routes/quotes.ts` — `POST /api/quotes/:id/duplicate`: find the
source quote and its lines in the account (404 otherwise), generate a
fresh quote number, insert a new quote with status `draft` copying the
source's totals and attributes verbatim, and copy every line. -/
def quotesDuplicate (quotesDb : List Quote) (linesDb : List QuoteLine)
    (accountId userId id : Nat) (year newId now : Nat) :
    Except AppErr (List Quote × List QuoteLine × Quote) :=
  match quotesDb.find? (fun q => q.id == id && q.accountId == accountId) with
  | none => Except.error (mkNotFoundError "Quote not found")
  | some original =>
    let originalLines := linesDb.filter (fun l => l.quoteId == id)
    let quoteNumber := generateQuoteNumber year
      ((sortByCreatedDesc (quotesDb.filter (fun q => q.accountId == accountId))).map
        (fun q => q.quoteNumber))
    let newQuote : Quote :=
      { id := newId, accountId := accountId, customerId := original.customerId,
        leadId := original.leadId, quoteNumber := quoteNumber,
        title := some (jsTemplateTitle original.title),
        status := "draft", validUntil := original.validUntil,
        taxRate := original.taxRate, subtotal := original.subtotal,
        taxAmount := original.taxAmount, total := original.total,
        depositAmount := original.depositAmount, notes := original.notes,
        termsAndConditions := original.termsAndConditions, createdBy := userId,
        createdAt := now }
    let newLines := originalLines.map (fun l =>
      { quoteId := newId, productId := l.productId, sortOrder := l.sortOrder,
        description := l.description, quantity := l.quantity, unitPrice := l.unitPrice,
        discount := l.discount, lineTotal := l.lineTotal, notes := l.notes })
    Except.ok (quotesDb ++ [newQuote], linesDb ++ newLines, newQuote)

/-- C5: duplicating a quote creates a new quote whose status is `draft`
regardless of the source's status, whose subtotal, tax amount, total and
tax rate are copied verbatim (not recalculated), whose quote number is
freshly generated, and whose line items carry identical `productId`,
`sortOrder`, `description`, `quantity`, `unitPrice`, `discount`,
`lineTotal` and `notes` to the source's lines (reparented to the new
quote). -/
theorem quotesDuplicate_spec (quotesDb : List Quote) (linesDb : List QuoteLine)
    (accountId userId id year newId now : Nat) (original : Quote)
    (h : quotesDb.find? (fun q => q.id == id && q.accountId == accountId) = some original) :
    ∃ nq nls,
      quotesDuplicate quotesDb linesDb accountId userId id year newId now =
        Except.ok (quotesDb ++ [nq], linesDb ++ nls, nq) ∧
      nq.status = "draft" ∧
      nq.subtotal = original.subtotal ∧
      nq.taxAmount = original.taxAmount ∧
      nq.total = original.total ∧
      nq.taxRate = original.taxRate ∧
      nq.quoteNumber = generateQuoteNumber year
        ((sortByCreatedDesc (quotesDb.filter (fun q => q.accountId == accountId))).map
          (fun q => q.quoteNumber)) ∧
      nls.map (fun l => l.productId) =
        (linesDb.filter (fun l => l.quoteId == id)).map (fun l => l.productId) ∧
      nls.map (fun l => l.sortOrder) =
        (linesDb.filter (fun l => l.quoteId == id)).map (fun l => l.sortOrder) ∧
      nls.map (fun l => l.description) =
        (linesDb.filter (fun l => l.quoteId == id)).map (fun l => l.description) ∧
      nls.map (fun l => l.quantity) =
        (linesDb.filter (fun l => l.quoteId == id)).map (fun l => l.quantity) ∧
      nls.map (fun l => l.unitPrice) =
        (linesDb.filter (fun l => l.quoteId == id)).map (fun l => l.unitPrice) ∧
      nls.map (fun l => l.discount) =
        (linesDb.filter (fun l => l.quoteId == id)).map (fun l => l.discount) ∧
      nls.map (fun l => l.lineTotal) =
        (linesDb.filter (fun l => l.quoteId == id)).map (fun l => l.lineTotal) ∧
      nls.map (fun l => l.notes) =
        (linesDb.filter (fun l => l.quoteId == id)).map (fun l => l.notes) ∧
      (∀ l ∈ nls, l.quoteId = newId) := by
  rw [quotesDuplicate, h]
  refine ⟨_, _, rfl, rfl, rfl, rfl, rfl, rfl, rfl, ?_, ?_, ?_, ?_, ?_, ?_, ?_, ?_, ?_⟩
  all_goals simp [List.map_map, Function.comp]
  intro l hl hmem hqid heq
  subst heq
  rfl

/-- A source quote line attached to `sampleQuoteB` (quote id 5). -/
def sampleLineB : QuoteLine :=
  { quoteId := 5, productId := some 11, sortOrder := 0, description := "Boiler",
    quantity := 1, unitPrice := 100, discount := 5, lineTotal := 95, notes := none }

/-- Witness for C5: duplicating `sampleQuoteB` (status `sent`) in a
concrete store. -/
theorem quotesDuplicate_spec_witness :
    ∃ nq nls,
      quotesDuplicate [sampleQuoteB] [sampleLineB] 2 3 5 2026 7 60 =
        Except.ok ([sampleQuoteB] ++ [nq], [sampleLineB] ++ nls, nq) ∧
      nq.status = "draft" ∧
      nq.subtotal = sampleQuoteB.subtotal ∧
      nq.taxAmount = sampleQuoteB.taxAmount ∧
      nq.total = sampleQuoteB.total ∧
      nq.taxRate = sampleQuoteB.taxRate ∧
      nq.quoteNumber = generateQuoteNumber 2026
        ((sortByCreatedDesc ([sampleQuoteB].filter (fun q => q.accountId == 2))).map
          (fun q => q.quoteNumber)) ∧
      nls.map (fun l => l.productId) =
        (([sampleLineB] : List QuoteLine).filter (fun l => l.quoteId == 5)).map
          (fun l => l.productId) ∧
      nls.map (fun l => l.sortOrder) =
        (([sampleLineB] : List QuoteLine).filter (fun l => l.quoteId == 5)).map
          (fun l => l.sortOrder) ∧
      nls.map (fun l => l.description) =
        (([sampleLineB] : List QuoteLine).filter (fun l => l.quoteId == 5)).map
          (fun l => l.description) ∧
      nls.map (fun l => l.quantity) =
        (([sampleLineB] : List QuoteLine).filter (fun l => l.quoteId == 5)).map
          (fun l => l.quantity) ∧
      nls.map (fun l => l.unitPrice) =
        (([sampleLineB] : List QuoteLine).filter (fun l => l.quoteId == 5)).map
          (fun l => l.unitPrice) ∧
      nls.map (fun l => l.discount) =
        (([sampleLineB] : List QuoteLine).filter (fun l => l.quoteId == 5)).map
          (fun l => l.discount) ∧
      nls.map (fun l => l.lineTotal) =
        (([sampleLineB] : List QuoteLine).filter (fun l => l.quoteId == 5)).map
          (fun l => l.lineTotal) ∧
      nls.map (fun l => l.notes) =
        (([sampleLineB] : List QuoteLine).filter (fun l => l.quoteId == 5)).map
          (fun l => l.notes) ∧
      (∀ l ∈ nls, l.quoteId = 7) :=
  quotesDuplicate_spec [sampleQuoteB] [sampleLineB] 2 3 5 2026 7 60 sampleQuoteB rfl

theorem calculateQuoteTotals_subtotal (lines : List QuoteLineInput) (rate : ℚ) :
    (calculateQuoteTotals lines rate).subtotal = (lines.map lineContribution).sum := by
  simp only [calculateQuoteTotals, lineContribution]
  simpa using foldl_add_eq_sum (fun l => l.quantity * l.unitPrice - l.discount) lines 0

theorem calculateQuoteTotals_taxAmount (lines : List QuoteLineInput) (rate : ℚ) :
    (calculateQuoteTotals lines rate).taxAmount =
      (calculateQuoteTotals lines rate).subtotal * rate / 100 := rfl

theorem calculateQuoteTotals_total (lines : List QuoteLineInput) (rate : ℚ) :
    (calculateQuoteTotals lines rate).total =
      (calculateQuoteTotals lines rate).subtotal + (calculateQuoteTotals lines rate).taxAmount := rfl

/-- C10: on quote creation, an omitted `taxRate` is defaulted to 20 by
the schema, and a supplied `taxRate` of 0 is also replaced by 20 through
`data.taxRate || 20`, both for the stored rate and for the computed
totals; a supplied non-zero rate in `(0,100]` is used as given. -/
theorem quotesCreate_taxRateDefault_spec (customersDb : List Customer) (quotesDb : List Quote)
    (linesDb : List QuoteLine) (accountId userId year newId now : Nat)
    (data : CreateQuoteInput) (raw : Option ℚ)
    (hraw : data.taxRate = zodDefault20 raw)
    (hcust : ∃ cu ∈ customersDb, cu.id = data.customerId ∧ cu.accountId = accountId) :
    ∃ qdb2 ldb2 q,
      quotesCreate customersDb quotesDb linesDb accountId userId data year newId now =
        Except.ok (qdb2, ldb2, q) ∧
      ((raw = none ∨ raw = some 0) →
        q.taxRate = 20 ∧
        q.subtotal = (data.lines.map lineContribution).sum ∧
        q.taxAmount = q.subtotal * 20 / 100 ∧
        q.total = q.subtotal + q.taxAmount) ∧
      (∀ r, raw = some r → r ≠ 0 → 0 < r → r ≤ 100 →
        q.taxRate = r ∧
        q.subtotal = (data.lines.map lineContribution).sum ∧
        q.taxAmount = q.subtotal * r / 100 ∧
        q.total = q.subtotal + q.taxAmount) := by
  obtain ⟨cu, hmem, hid, hacc⟩ := hcust
  have hsome : (customersDb.find?
      (fun c => c.id == data.customerId && c.accountId == accountId)).isSome := by
    rw [List.find?_isSome]
    exact ⟨cu, hmem, by simp [hid, hacc]⟩
  obtain ⟨cu0, hfind⟩ := Option.isSome_iff_exists.mp hsome
  refine ⟨_, _, _, by rw [quotesCreate, hfind], ?_, ?_⟩
  · intro hcase
    have hrate : jsOr data.taxRate 20 = 20 := by
      rcases hcase with h0 | h0 <;> subst h0 <;>
        simp [hraw, zodDefault20, jsOr]
    refine ⟨hrate, ?_, ?_, ?_⟩
    · exact calculateQuoteTotals_subtotal data.lines (jsOr data.taxRate 20)
    · rw [show (calculateQuoteTotals data.lines (jsOr data.taxRate 20)).taxAmount =
          (calculateQuoteTotals data.lines (jsOr data.taxRate 20)).subtotal *
            (jsOr data.taxRate 20) / 100 from rfl, hrate]
    · rfl
  · intro r hr hne _ _
    subst hr
    have hrate : jsOr data.taxRate 20 = r := by
      simp [hraw, zodDefault20, jsOr, hne]
    refine ⟨hrate, ?_, ?_, ?_⟩
    · exact calculateQuoteTotals_subtotal data.lines (jsOr data.taxRate 20)
    · rw [show (calculateQuoteTotals data.lines (jsOr data.taxRate 20)).taxAmount =
          (calculateQuoteTotals data.lines (jsOr data.taxRate 20)).subtotal *
            (jsOr data.taxRate 20) / 100 from rfl, hrate]
    · rfl

/-- Witness for C10: a creation request that explicitly supplies
`taxRate: 0` for customer 9 of account 1. -/
theorem quotesCreate_taxRateDefault_spec_witness :
    ∃ qdb2 ldb2 q,
      quotesCreate [⟨9, 1, "Ann", "Lee"⟩] [] [] 1 3
        { customerId := 9, leadId := none, title := none, validUntil := none,
          taxRate := zodDefault20 (some 0), depositAmount := none, notes := none,
          termsAndConditions := none, lines := [⟨none, "Boiler", 1, 1200, 0, none⟩] }
        2026 1 10 = Except.ok (qdb2, ldb2, q) ∧
      ((some 0 = (none : Option ℚ) ∨ (some 0 : Option ℚ) = some 0) →
        q.taxRate = 20 ∧
        q.subtotal = (([⟨none, "Boiler", 1, 1200, 0, none⟩] :
          List QuoteLineInput).map lineContribution).sum ∧
        q.taxAmount = q.subtotal * 20 / 100 ∧
        q.total = q.subtotal + q.taxAmount) ∧
      (∀ r, (some 0 : Option ℚ) = some r → r ≠ 0 → 0 < r → r ≤ 100 →
        q.taxRate = r ∧
        q.subtotal = (([⟨none, "Boiler", 1, 1200, 0, none⟩] :
          List QuoteLineInput).map lineContribution).sum ∧
        q.taxAmount = q.subtotal * r / 100 ∧
        q.total = q.subtotal + q.taxAmount) :=
  quotesCreate_taxRateDefault_spec [⟨9, 1, "Ann", "Lee"⟩] [] [] 1 3 2026 1 10
    { customerId := 9, leadId := none, title := none, validUntil := none,
      taxRate := zodDefault20 (some 0), depositAmount := none, notes := none,
      termsAndConditions := none, lines := [⟨none, "Boiler", 1, 1200, 0, none⟩] }
    (some 0) rfl ⟨⟨9, 1, "Ann", "Lee"⟩, by simp, rfl, rfl⟩

/-- Projection of a successful quote-route result onto the returned
quote. -/
def okQuote (r : Except AppErr (List Quote × List QuoteLine × Quote)) : Option Quote :=
  match r with
  | Except.ok (_, _, q) => some q
  | Except.error _ => none

/-- An existing quote at tax rate 20 used to exhibit the update bug. -/
def c2Existing : Quote :=
  { id := 1, accountId := 1, customerId := 9, leadId := none,
    quoteNumber := 'Q' :: 'U' :: 'O' :: '-' :: '2' :: '0' :: '2' :: '6' :: '-' :: '0' :: '0' :: ['1'],
    title := none, status := "draft", validUntil := none,
    taxRate := 20, subtotal := 100, taxAmount := 20, total := 120,
    depositAmount := none, notes := none, termsAndConditions := none,
    createdBy := 3, createdAt := 10 }

/-- An update request that supplies new lines together with `taxRate: 0`. -/
def c2Update : UpdateQuoteInput :=
  { title := none, validUntil := none, taxRate := some 0, depositAmount := none,
    notes := none, termsAndConditions := none, status := none,
    lines := some [⟨none, "Boiler", 1, 100, 0, none⟩] }

/-- C2 (bug evaluation): updating quote 1 of account 1 with one line
`1 × 100 − 0` and `taxRate: 0` stores `taxRate = 0` but computes the
totals at the pre-existing rate 20 (because the recalculation uses
`data.taxRate || existing.taxRate` while the stored rate is
`data.taxRate`): the stored record has subtotal 100, taxAmount 20 and
total 120, violating `taxAmount = subtotal × taxRate / 100`. -/
theorem quotesUpdate_taxRateZero_bug :
    (okQuote (quotesUpdate [c2Existing] [] 1 1 c2Update)).map (fun q => q.taxRate) = some 0 ∧
    (okQuote (quotesUpdate [c2Existing] [] 1 1 c2Update)).map (fun q => q.subtotal) = some 100 ∧
    (okQuote (quotesUpdate [c2Existing] [] 1 1 c2Update)).map (fun q => q.taxAmount) = some 20 ∧
    (okQuote (quotesUpdate [c2Existing] [] 1 1 c2Update)).map (fun q => q.total) = some 120 ∧
    (okQuote (quotesUpdate [c2Existing] [] 1 1 c2Update)).map
      (fun q => decide (q.taxAmount = q.subtotal * q.taxRate / 100)) = some false := by
  norm_num [okQuote, quotesUpdate, c2Existing, c2Update, jsOrOpt, jsOr, optSet,
    calculateQuoteTotals, mkQuoteLines]

/-- The caller identity attached to the request context by the
authentication middleware (the `authenticate` middleware file itself is
not among the captured sources; per the spec it verifies the session
token and attaches the user id, account id and role, which is exactly
what the captured handlers read). -/
structure AuthUser where
  id : Nat
  accountId : Nat
  role : String
  deriving DecidableEq, Repr

/-- Row of the `users` table (password hash and phone are elided — no
verified claim depends on them). -/
structure User where
  id : Nat
  accountId : Nat
  email : String
  name : String
  role : String
  isActive : Bool
  deriving DecidableEq, Repr

/-- Row of the `accounts` table. -/
structure Account where
  id : Nat
  name : String
  plan : String
  isActive : Bool
  deriving DecidableEq, Repr

/-- Row of the global `boiler_specifications` table (optional catalog
fields elided). -/
structure Boiler where
  id : Nat
  manufacturer : String
  model : String
  deriving DecidableEq, Repr

/-- The body accepted by `createProductSchema` after zod validation
(optional catalog fields elided). -/
structure CreateProductInput where
  sku : String
  name : String
  sellPrice : ℚ
  deriving DecidableEq, Repr

/-- The body accepted by `registerSchema` after zod validation. -/
structure RegisterInput where
  accountName : String
  email : String
  name : String
  password : String
  deriving DecidableEq, Repr

/-- The body accepted by the users route's `createUserSchema` after zod
validation (`role` has received its default `surveyor` when omitted). -/
structure CreateUserInput where
  email : String
  name : String
  password : String
  role : String
  phone : Option String
  deriving DecidableEq, Repr

/-- The body accepted by the boilers route's `createBoilerSchema` after
zod validation (optional fields elided). -/
structure CreateBoilerInput where
  manufacturer : String
  model : String
  deriving DecidableEq, Repr

/-- What a product-creation request can fail with: an `AppError` thrown
by the handler itself, or a database error raised by the insert — the
schema (`db/schema.ts`) declares `sku: varchar('sku').unique()`, a
GLOBAL unique constraint, so an insert whose SKU exists in any account
violates `products_sku_unique`.  A database error is not an `AppError`,
so the central error handler turns it into a generic 500, never a 409. -/
inductive ProductsCreateErr where
  | appError (e : AppErr)
  | dbUniqueViolation (constraint : String)
  deriving DecidableEq, Repr

/-- `routes/products.ts` — `POST /api/products`: the handler rejects with
`ConflictError` when a product with the same SKU already exists in the
caller's account; otherwise it runs `db.insert`, which enforces the
schema's global unique constraint on `sku`: the insert raises
`products_sku_unique` when any account already holds the SKU, and only
otherwise appends the row. -/
def productsCreate (db : List Product) (accountId : Nat) (data : CreateProductInput)
    (newId : Nat) : Except ProductsCreateErr (List Product × Product) :=
  match db.find? (fun p => p.sku == data.sku && p.accountId == accountId) with
  | some _ =>
    Except.error (ProductsCreateErr.appError
      (mkConflictError "Product with this SKU already exists"))
  | none =>
    match db.find? (fun p => p.sku == data.sku) with
    | some _ => Except.error (ProductsCreateErr.dbUniqueViolation "products_sku_unique")
    | none =>
      let p : Product :=
        { id := newId, accountId := accountId, sku := data.sku, name := data.name,
          sellPrice := data.sellPrice }
      Except.ok (db ++ [p], p)

/-- The `products` table after a create request (unchanged when the
request fails: the handler throws before inserting, and a rejected
insert writes nothing). -/
def productsCreateDb (db : List Product) (accountId : Nat) (data : CreateProductInput)
    (newId : Nat) : List Product :=
  match productsCreate db accountId data newId with
  | Except.ok (db2, _) => db2
  | Except.error _ => db

/-- `routes/auth.ts` — `POST /api/auth/register`: reject with
`ConflictError` when any user already has the email, otherwise create the
account (plan `free`) and its first user (role `admin`) in a
transaction. -/
def registerHandler (usersDb : List User) (accountsDb : List Account) (data : RegisterInput)
    (newAccountId newUserId : Nat) : Except AppErr (List Account × List User) :=
  match usersDb.find? (fun u => u.email == data.email) with
  | some _ => Except.error (mkConflictError "User with this email already exists")
  | none =>
    let account : Account :=
      { id := newAccountId, name := data.accountName, plan := "free", isActive := true }
    let user : User :=
      { id := newUserId, accountId := newAccountId, email := data.email, name := data.name,
        role := "admin", isActive := true }
    Except.ok (accountsDb ++ [account], usersDb ++ [user])

/-- The `users` table after a registration request. -/
def registerUsersDb (usersDb : List User) (accountsDb : List Account) (data : RegisterInput)
    (newAccountId newUserId : Nat) : List User :=
  match registerHandler usersDb accountsDb data newAccountId newUserId with
  | Except.ok (_, udb) => udb
  | Except.error _ => usersDb

/-- `routes/users.ts` — `POST /api/users` (team-member creation): a
non-admin caller gets `new AppError('Only admins can create users', 403)`
— note the arguments land in the class's `(statusCode, message)` slots in
that order; a duplicate email (checked across all accounts) gets
`new AppError('Email already in use', 400)`; otherwise the user is
inserted into the caller's account. -/
def usersCreate (usersDb : List User) (caller : AuthUser) (data : CreateUserInput)
    (newId : Nat) : Except AppErr (List User × User) :=
  if caller.role ≠ "admin" then
    Except.error (mkAppError (JsVal.str "Only admins can create users") (JsVal.num 403))
  else
    match usersDb.find? (fun u => u.email == data.email) with
    | some _ => Except.error (mkAppError (JsVal.str "Email already in use") (JsVal.num 400))
    | none =>
      let user : User :=
        { id := newId, accountId := caller.accountId, email := data.email, name := data.name,
          role := data.role, isActive := true }
      Except.ok (usersDb ++ [user], user)

/-- The `users` table after a team-member creation request. -/
def usersCreateDb (usersDb : List User) (caller : AuthUser) (data : CreateUserInput)
    (newId : Nat) : List User :=
  match usersCreate usersDb caller data newId with
  | Except.ok (udb, _) => udb
  | Except.error _ => usersDb

/-- `routes/users.ts` — `DELETE /api/users/:id` (deactivate): a
non-admin caller gets
`new AppError('Only admins can deactivate users', 403)` (arguments again
in the class's `(statusCode, message)` slots); self-deactivation gets a
400; otherwise the account-scoped update sets `isActive` to false,
or 404 when no row matches. -/
def usersDeactivate (usersDb : List User) (caller : AuthUser) (id : Nat) :
    Except AppErr (List User) :=
  if caller.role ≠ "admin" then
    Except.error (mkAppError (JsVal.str "Only admins can deactivate users") (JsVal.num 403))
  else if id == caller.id then
    Except.error (mkAppError (JsVal.str "Cannot deactivate your own account") (JsVal.num 400))
  else
    match usersDb.find? (fun u => u.id == id && u.accountId == caller.accountId) with
    | none => Except.error (mkAppError (JsVal.str "User not found") (JsVal.num 404))
    | some _ =>
      Except.ok (usersDb.map (fun u =>
        if u.id == id && u.accountId == caller.accountId then { u with isActive := false }
        else u))

/-- The `users` table after a deactivation request. -/
def usersDeactivateDb (usersDb : List User) (caller : AuthUser) (id : Nat) : List User :=
  match usersDeactivate usersDb caller id with
  | Except.ok udb => udb
  | Except.error _ => usersDb

/-- `routes/boilers.ts` — `POST /api/boilers`: a caller whose role is not
`admin` gets `new AppError('Unauthorized', 403)` (the class's parameters
are `(statusCode, message)`, so the string lands in `statusCode`);
otherwise the specification is inserted. -/
def boilersCreate (db : List Boiler) (caller : AuthUser) (data : CreateBoilerInput)
    (newId : Nat) : Except AppErr (List Boiler × Boiler) :=
  if caller.role ≠ "admin" then
    Except.error (mkAppError (JsVal.str "Unauthorized") (JsVal.num 403))
  else
    let b : Boiler := { id := newId, manufacturer := data.manufacturer, model := data.model }
    Except.ok (db ++ [b], b)

/-- The `boiler_specifications` table after a create request. -/
def boilersCreateDb (db : List Boiler) (caller : AuthUser) (data : CreateBoilerInput)
    (newId : Nat) : List Boiler :=
  match boilersCreate db caller data newId with
  | Except.ok (db2, _) => db2
  | Except.error _ => db

/-- A non-admin caller used to exhibit the role-gating bug. -/
def c6Surveyor : AuthUser := { id := 4, accountId := 1, role := "surveyor" }

/-- The colleague the non-admin caller tries to deactivate. -/
def c6TargetUser : User :=
  { id := 2, accountId := 1, email := "bob@example.com", name := "Bob", role := "office",
    isActive := true }

/-- C6 (bug evaluation): a valid non-admin session creating a boiler
specification or deactivating a user is rejected before any write, but
the thrown error is a plain `AppError` whose constructor arguments are
swapped relative to the class's `(statusCode, message)` signature: the
`statusCode` field holds the message string and the message field holds
403, so the response is neither a `ForbiddenError` nor HTTP 403. -/
theorem nonAdminGating_bug :
    boilersCreate [] c6Surveyor ⟨"Vaillant", "ecoTEC"⟩ 1 =
      Except.error (mkAppError (JsVal.str "Unauthorized") (JsVal.num 403)) ∧
    usersDeactivate [c6TargetUser] c6Surveyor 2 =
      Except.error (mkAppError (JsVal.str "Only admins can deactivate users") (JsVal.num 403)) ∧
    boilersCreateDb [] c6Surveyor ⟨"Vaillant", "ecoTEC"⟩ 1 = [] ∧
    usersDeactivateDb [c6TargetUser] c6Surveyor 2 = [c6TargetUser] ∧
    (mkAppError (JsVal.str "Unauthorized") (JsVal.num 403)).name ≠ "ForbiddenError" ∧
    (mkAppError (JsVal.str "Only admins can deactivate users") (JsVal.num 403)).name ≠
      "ForbiddenError" ∧
    errorHandlerStatus (mkAppError (JsVal.str "Unauthorized") (JsVal.num 403)) ≠
      JsVal.num 403 ∧
    errorHandlerStatus (mkAppError (JsVal.str "Unauthorized") (JsVal.num 403)) =
      JsVal.str "Unauthorized" := by
  refine ⟨rfl, rfl, rfl, rfl, by decide, by decide, by decide, rfl⟩

/-- C7 counterexample: account 2 already holds SKU `X1`; account 1's
creation of SKU `X1` passes the handler's account-scoped conflict check
but the insert violates the schema's global unique constraint on `sku`,
so the request IS rejected (with a database error, not a 409) and
inserts nothing — refuting the claim's "the same SKU under a different
account is not rejected". -/
theorem productsCreate_crossAccountSku_counterexample :
    productsCreate [⟨7, 2, "X1", "Other", 5⟩] 1 ⟨"X1", "Valve", 9⟩ 3 =
      Except.error (ProductsCreateErr.dbUniqueViolation "products_sku_unique") ∧
    productsCreateDb [⟨7, 2, "X1", "Other", 5⟩] 1 ⟨"X1", "Valve", 9⟩ 3 =
      [⟨7, 2, "X1", "Other", 5⟩] := by
  refine ⟨rfl, rfl⟩

/-- C7 (amended): a second product-creation request with the same SKU in
the same account fails with `ConflictError` (HTTP 409) and inserts
nothing; a request with a SKU held by a different account passes the
handler's conflict check but fails on the schema's global
`products_sku_unique` constraint (a database error, not a
`ConflictError`/409) and also inserts nothing; a SKU new to the whole
table is accepted. -/
theorem productsCreate_duplicateSku_spec (db : List Product) (accountId : Nat)
    (data : CreateProductInput) (n1 n2 : Nat) :
    (∀ db1 p1, productsCreate db accountId data n1 = Except.ok (db1, p1) →
      productsCreate db1 accountId data n2 =
        Except.error (ProductsCreateErr.appError
          (mkConflictError "Product with this SKU already exists")) ∧
      productsCreateDb db1 accountId data n2 = db1 ∧
      errorHandlerStatus (mkConflictError "Product with this SKU already exists") =
        JsVal.num 409) ∧
    ((∃ p ∈ db, p.sku = data.sku) → (∀ p ∈ db, p.sku = data.sku → p.accountId ≠ accountId) →
      productsCreate db accountId data n1 =
        Except.error (ProductsCreateErr.dbUniqueViolation "products_sku_unique") ∧
      productsCreateDb db accountId data n1 = db) ∧
    ((∀ p ∈ db, p.sku ≠ data.sku) →
      ∃ db1 p1, productsCreate db accountId data n1 = Except.ok (db1, p1)) := by
  refine ⟨?_, ?_, ?_⟩
  · intro db1 p1 hok
    cases hfind : db.find? (fun p => p.sku == data.sku && p.accountId == accountId) with
    | some p =>
      rw [productsCreate, hfind] at hok
      exact absurd hok (by simp)
    | none =>
      cases hfind2 : db.find? (fun p => p.sku == data.sku) with
      | some p =>
        rw [productsCreate, hfind, hfind2] at hok
        exact absurd hok (by simp)
      | none =>
        rw [productsCreate, hfind, hfind2] at hok
        simp only [Except.ok.injEq, Prod.mk.injEq] at hok
        obtain ⟨hdb1, hp1⟩ := hok
        have hfind3 : db1.find? (fun p => p.sku == data.sku && p.accountId == accountId) =
            some { id := n1, accountId := accountId, sku := data.sku, name := data.name,
                   sellPrice := data.sellPrice } := by
          rw [← hdb1, List.find?_append, hfind]
          simp
        refine ⟨?_, ?_, rfl⟩
        · rw [productsCreate, hfind3]
        · rw [productsCreateDb, productsCreate, hfind3]
  · intro hdup hother
    have hfind : db.find? (fun p => p.sku == data.sku && p.accountId == accountId) = none := by
      rw [List.find?_eq_none]
      intro p hp
      simp only [Bool.and_eq_true, beq_iff_eq, not_and]
      intro hsku
      exact fun hacc => hother p hp hsku hacc
    obtain ⟨p, hp, hsku⟩ := hdup
    have hsome : (db.find? (fun p => p.sku == data.sku)).isSome := by
      rw [List.find?_isSome]
      exact ⟨p, hp, by simp [hsku]⟩
    obtain ⟨p0, hfind2⟩ := Option.isSome_iff_exists.mp hsome
    refine ⟨?_, ?_⟩
    · rw [productsCreate, hfind, hfind2]
    · rw [productsCreateDb, productsCreate, hfind, hfind2]
  · intro hnone
    have hfind : db.find? (fun p => p.sku == data.sku && p.accountId == accountId) = none := by
      rw [List.find?_eq_none]
      intro p hp
      simp only [Bool.and_eq_true, beq_iff_eq, not_and]
      intro hsku
      exact absurd hsku (hnone p hp)
    have hfind2 : db.find? (fun p => p.sku == data.sku) = none := by
      rw [List.find?_eq_none]
      intro p hp
      simp only [beq_iff_eq]
      exact hnone p hp
    exact ⟨_, _, by rw [productsCreate, hfind, hfind2]⟩

/-- Witness for C7 (amended): SKU `X1` created twice under account 1
(second call rejected with the 409 conflict, table unchanged), SKU `X1`
created under account 1 while only account 2 holds `X1` (rejected by the
unique constraint, table unchanged), and a fresh SKU `Y2` accepted. -/
theorem productsCreate_duplicateSku_spec_witness :
    productsCreate [⟨1, 1, "X1", "Valve", 9⟩] 1 ⟨"X1", "Valve", 9⟩ 2 =
      Except.error (ProductsCreateErr.appError
        (mkConflictError "Product with this SKU already exists")) ∧
    productsCreateDb [⟨1, 1, "X1", "Valve", 9⟩] 1 ⟨"X1", "Valve", 9⟩ 2 =
      [⟨1, 1, "X1", "Valve", 9⟩] ∧
    productsCreate [⟨7, 2, "X1", "Other", 5⟩] 1 ⟨"X1", "Valve", 9⟩ 3 =
      Except.error (ProductsCreateErr.dbUniqueViolation "products_sku_unique") ∧
    productsCreateDb [⟨7, 2, "X1", "Other", 5⟩] 1 ⟨"X1", "Valve", 9⟩ 3 =
      [⟨7, 2, "X1", "Other", 5⟩] ∧
    ∃ db1 p1, productsCreate [⟨7, 2, "X1", "Other", 5⟩] 1 ⟨"Y2", "Filter", 4⟩ 4 =
      Except.ok (db1, p1) := by
  have h1 := (productsCreate_duplicateSku_spec ([] : List Product) 1 ⟨"X1", "Valve", 9⟩ 1 2).1
    [⟨1, 1, "X1", "Valve", 9⟩] ⟨1, 1, "X1", "Valve", 9⟩ rfl
  have h2 := (productsCreate_duplicateSku_spec [⟨7, 2, "X1", "Other", 5⟩] 1
    ⟨"X1", "Valve", 9⟩ 3 4).2.1
    ⟨⟨7, 2, "X1", "Other", 5⟩, by simp, rfl⟩
    (by intro p hp hsku
        simp only [List.mem_singleton] at hp
        subst hp
        norm_num)
  have h3 := (productsCreate_duplicateSku_spec [⟨7, 2, "X1", "Other", 5⟩] 1
    ⟨"Y2", "Filter", 4⟩ 4 5).2.2
    (by intro p hp
        simp only [List.mem_singleton] at hp
        subst hp
        decide)
  exact ⟨h1.1, h1.2.1, h2.1, h2.2, h3⟩

/-- C8 counterexample: with user `ann@example.com` already present, an
admin's team-member creation request for the same email fails, but with
`new AppError('Email already in use', 400)` — not a `ConflictError` and
not HTTP 409 (and, the class parameters being `(statusCode, message)`,
the string even lands in the `statusCode` field). -/
theorem usersCreate_duplicateEmail_counterexample :
    usersCreate [⟨1, 1, "ann@example.com", "Ann", "admin", true⟩] ⟨1, 1, "admin"⟩
      ⟨"ann@example.com", "Bob", "longpassword123", "surveyor", none⟩ 2 =
      Except.error (mkAppError (JsVal.str "Email already in use") (JsVal.num 400)) ∧
    (mkAppError (JsVal.str "Email already in use") (JsVal.num 400)).name ≠ "ConflictError" ∧
    errorHandlerStatus (mkAppError (JsVal.str "Email already in use") (JsVal.num 400)) ≠
      JsVal.num 409 := by
  refine ⟨rfl, by decide, by decide⟩

/-- C8 (amended): a duplicate email is rejected without creating a user
by both user-creation paths, but only self-service registration raises a
`ConflictError` (HTTP 409); admin team-member creation raises
`new AppError('Email already in use', 400)` instead. -/
theorem userCreation_duplicateEmail_spec :
    (∀ (usersDb : List User) (accountsDb : List Account) (data : RegisterInput)
        (newAccountId newUserId : Nat),
      (∃ u ∈ usersDb, u.email = data.email) →
      registerHandler usersDb accountsDb data newAccountId newUserId =
        Except.error (mkConflictError "User with this email already exists") ∧
      registerUsersDb usersDb accountsDb data newAccountId newUserId = usersDb ∧
      errorHandlerStatus (mkConflictError "User with this email already exists") =
        JsVal.num 409) ∧
    (∀ (usersDb : List User) (caller : AuthUser) (data : CreateUserInput) (newId : Nat),
      caller.role = "admin" →
      (∃ u ∈ usersDb, u.email = data.email) →
      usersCreate usersDb caller data newId =
        Except.error (mkAppError (JsVal.str "Email already in use") (JsVal.num 400)) ∧
      usersCreateDb usersDb caller data newId = usersDb) := by
  constructor
  · intro usersDb accountsDb data newAccountId newUserId hdup
    obtain ⟨u, hu, hemail⟩ := hdup
    have hsome : (usersDb.find? (fun v => v.email == data.email)).isSome := by
      rw [List.find?_isSome]
      exact ⟨u, hu, by simp [hemail]⟩
    obtain ⟨u0, hfind⟩ := Option.isSome_iff_exists.mp hsome
    refine ⟨by rw [registerHandler, hfind], ?_, rfl⟩
    rw [registerUsersDb, registerHandler, hfind]
  · intro usersDb caller data newId hrole hdup
    obtain ⟨u, hu, hemail⟩ := hdup
    have hsome : (usersDb.find? (fun v => v.email == data.email)).isSome := by
      rw [List.find?_isSome]
      exact ⟨u, hu, by simp [hemail]⟩
    obtain ⟨u0, hfind⟩ := Option.isSome_iff_exists.mp hsome
    have hnrole : ¬ caller.role ≠ "admin" := by simp [hrole]
    refine ⟨?_, ?_⟩
    · rw [usersCreate, if_neg hnrole, hfind]
    · rw [usersCreateDb, usersCreate, if_neg hnrole, hfind]

/-- Witness for C8 (amended): both rejection paths at a concrete store
holding `ann@example.com`. -/
theorem userCreation_duplicateEmail_spec_witness :
    (registerHandler [⟨1, 1, "ann@example.com", "Ann", "admin", true⟩] []
      ⟨"Acme Heating", "ann@example.com", "Ann B", "Longpassword1x"⟩ 2 3 =
      Except.error (mkConflictError "User with this email already exists") ∧
    registerUsersDb [⟨1, 1, "ann@example.com", "Ann", "admin", true⟩] []
      ⟨"Acme Heating", "ann@example.com", "Ann B", "Longpassword1x"⟩ 2 3 =
      [⟨1, 1, "ann@example.com", "Ann", "admin", true⟩]) ∧
    (usersCreate [⟨1, 1, "ann@example.com", "Ann", "admin", true⟩] ⟨1, 1, "admin"⟩
      ⟨"ann@example.com", "Bob", "longpassword123", "surveyor", none⟩ 2 =
      Except.error (mkAppError (JsVal.str "Email already in use") (JsVal.num 400)) ∧
    usersCreateDb [⟨1, 1, "ann@example.com", "Ann", "admin", true⟩] ⟨1, 1, "admin"⟩
      ⟨"ann@example.com", "Bob", "longpassword123", "surveyor", none⟩ 2 =
      [⟨1, 1, "ann@example.com", "Ann", "admin", true⟩]) := by
  have h1 := userCreation_duplicateEmail_spec.1
    [⟨1, 1, "ann@example.com", "Ann", "admin", true⟩] []
    ⟨"Acme Heating", "ann@example.com", "Ann B", "Longpassword1x"⟩ 2 3
    ⟨⟨1, 1, "ann@example.com", "Ann", "admin", true⟩, by simp, rfl⟩
  have h2 := userCreation_duplicateEmail_spec.2
    [⟨1, 1, "ann@example.com", "Ann", "admin", true⟩] ⟨1, 1, "admin"⟩
    ⟨"ann@example.com", "Bob", "longpassword123", "surveyor", none⟩ 2 rfl
    ⟨⟨1, 1, "ann@example.com", "Ann", "admin", true⟩, by simp, rfl⟩
  exact ⟨⟨h1.1, h1.2.1⟩, h2⟩

/-- Substring test on character lists (used to model SQL
`ilike '%needle%'`). -/
def isSubstring (needle : List Char) : List Char → Bool
  | [] => needle.isPrefixOf []
  | c :: t => needle.isPrefixOf (c :: t) || isSubstring needle t

/-- `ilike '%needle%'`: case-insensitive substring containment. -/
def ilikeContains (hay : List Char) (needle : List Char) : Bool :=
  isSubstring (needle.map Char.toLower) (hay.map Char.toLower)

/-- `ilike` over a nullable column: SQL yields NULL (treated as no
match) for a NULL haystack. -/
def ilikeContainsOpt (hay : Option String) (needle : List Char) : Bool :=
  match hay with
  | none => false
  | some h => ilikeContains h.toList needle

/-- The query accepted by `quoteQuerySchema` after zod validation
(`page` defaults to 1, `pageSize` to 20, bounded 1–100). -/
structure QuoteQuery where
  page : Nat
  pageSize : Nat
  search : Option String
  status : Option String
  customerId : Option Nat
  deriving DecidableEq, Repr

/-- The `where` conditions of `GET /api/quotes`: account scoping plus
the optional search (`ilike` over quote number, title, notes), status and
customer filters. -/
def quoteMatchesQuery (accountId : Nat) (qq : QuoteQuery) (q : Quote) : Bool :=
  q.accountId == accountId &&
  (match qq.search with
   | none => true
   | some s => ilikeContains q.quoteNumber s.toList || ilikeContainsOpt q.title s.toList ||
       ilikeContainsOpt q.notes s.toList) &&
  (match qq.status with
   | none => true
   | some st => q.status == st) &&
  (match qq.customerId with
   | none => true
   | some cid => q.customerId == cid)

/-- JavaScript `Math.ceil(a / b)` on non-negative integers, with the
division taken exactly. -/
def mathCeilDiv (a b : Nat) : Nat := (Int.ceil ((a : ℚ) / (b : ℚ))).toNat

/-- The `pagination` object of the list responses. -/
structure PaginationOut where
  page : Nat
  pageSize : Nat
  total : Nat
  totalPages : Nat
  deriving DecidableEq, Repr

/-- `routes/quotes.ts` — `GET /api/quotes`: count the rows matching the
conditions, then return the page `offset = (page-1)*pageSize`,
`limit = pageSize` of the matching rows ordered by `createdAt desc`,
with `totalPages = Math.ceil(count / pageSize)`. -/
def quotesList (db : List Quote) (accountId : Nat) (qq : QuoteQuery) :
    PaginationOut × List Quote :=
  let filtered := db.filter (quoteMatchesQuery accountId qq)
  let count := filtered.length
  let results := ((sortByCreatedDesc filtered).drop ((qq.page - 1) * qq.pageSize)).take qq.pageSize
  ({ page := qq.page, pageSize := qq.pageSize, total := count,
     totalPages := mathCeilDiv count qq.pageSize }, results)

theorem mathCeilDiv_eq (a b : Nat) (hb : 1 ≤ b) : mathCeilDiv a b = (a + b - 1) / b := by
  have hb0 : (0 : ℚ) < (b : ℚ) := by exact_mod_cast Nat.lt_of_lt_of_le Nat.zero_lt_one hb
  have hceil : Int.ceil ((a : ℚ) / (b : ℚ)) = (((a + b - 1) / b : Nat) : ℤ) := by
    rw [Int.ceil_eq_iff]
    constructor
    · rcases Nat.eq_zero_or_pos ((a + b - 1) / b) with h0 | h1
      · rw [h0]
        push_cast
        have hnn : (0 : ℚ) ≤ (a : ℚ) / (b : ℚ) := by positivity
        linarith
      · push_cast
        rw [sub_lt_iff_lt_add]
        rw [div_add' _ _ _ (ne_of_gt hb0)]
        rw [lt_div_iff hb0]
        have hA : ((a + b - 1) / b - 1) * b + b = ((a + b - 1) / b) * b := by
          have h2 : (a + b - 1) / b - 1 + 1 = (a + b - 1) / b := Nat.succ_pred_eq_of_pos h1
          calc ((a + b - 1) / b - 1) * b + b = ((a + b - 1) / b - 1 + 1) * b := by ring
            _ = ((a + b - 1) / b) * b := by rw [h2]
        have hB : ((a + b - 1) / b) * b ≤ a + b - 1 := Nat.div_mul_le_self _ _
        have ha1 : 1 ≤ a := by
          by_contra ha
          have ha0 : a = 0 := by omega
          subst ha0
          have hz : (0 + b - 1) / b = 0 := Nat.div_eq_of_lt (by omega)
          omega
        have hAa : ((a + b - 1) / b) * b < a + b := by omega
        calc ((((a + b - 1) / b : Nat) : ℚ)) * (b : ℚ)
            = ((((a + b - 1) / b) * b : Nat) : ℚ) := by push_cast; ring
          _ < (((a + b : Nat)) : ℚ) := by exact_mod_cast hAa
          _ = (a : ℚ) + 1 * (b : ℚ) := by push_cast; ring
    · rw [div_le_iff hb0]
      have hle : a ≤ ((a + b - 1) / b) * b := by
        have hdm := Nat.div_add_mod (a + b - 1) b
        have hmlt : (a + b - 1) % b < b := Nat.mod_lt _ (by omega)
        have hswap : ((a + b - 1) / b) * b = b * ((a + b - 1) / b) := by ring
        omega
      have hc : ((((a + b - 1) / b : Nat) : ℤ) : ℚ) = (((a + b - 1) / b : Nat) : ℚ) := by
        norm_cast
      rw [hc]
      exact_mod_cast hle
  rw [mathCeilDiv, hceil]
  exact Int.toNat_natCast _

/-- C9: for every quotes list request with `page ≥ 1` and `pageSize` in
`[1,100]`, the response reports
`totalPages = ceil(total / pageSize) = (total + pageSize - 1) / pageSize`,
returns at most `pageSize` rows, and a page beyond `totalPages` yields an
empty data set rather than an error. -/
theorem quotesList_pagination_spec (db : List Quote) (accountId : Nat) (qq : QuoteQuery)
    (hpage : 1 ≤ qq.page) (hps1 : 1 ≤ qq.pageSize) (hps2 : qq.pageSize ≤ 100) :
    (quotesList db accountId qq).1.totalPages =
      ((quotesList db accountId qq).1.total + qq.pageSize - 1) / qq.pageSize ∧
    (quotesList db accountId qq).2.length ≤ qq.pageSize ∧
    ((quotesList db accountId qq).1.totalPages < qq.page →
      (quotesList db accountId qq).2 = []) := by
  refine ⟨?_, ?_, ?_⟩
  · simp only [quotesList]
    exact mathCeilDiv_eq _ _ hps1
  · simp only [quotesList]
    rw [List.length_take]
    exact min_le_left _ _
  · intro hlt
    simp only [quotesList] at hlt ⊢
    have hlen : (sortByCreatedDesc (db.filter (quoteMatchesQuery accountId qq))).length =
        (db.filter (quoteMatchesQuery accountId qq)).length := length_sortBy _ _
    have hceil : (db.filter (quoteMatchesQuery accountId qq)).length ≤
        mathCeilDiv (db.filter (quoteMatchesQuery accountId qq)).length qq.pageSize *
          qq.pageSize := by
      rw [mathCeilDiv_eq _ _ hps1]
      have hdm := Nat.div_add_mod
        ((db.filter (quoteMatchesQuery accountId qq)).length + qq.pageSize - 1) qq.pageSize
      have hmlt : ((db.filter (quoteMatchesQuery accountId qq)).length + qq.pageSize - 1) %
          qq.pageSize < qq.pageSize := Nat.mod_lt _ (by omega)
      have hswap : (((db.filter (quoteMatchesQuery accountId qq)).length + qq.pageSize - 1) /
            qq.pageSize) * qq.pageSize =
          qq.pageSize * (((db.filter (quoteMatchesQuery accountId qq)).length + qq.pageSize - 1) /
            qq.pageSize) := by ring
      omega
    have hoff : (sortByCreatedDesc (db.filter (quoteMatchesQuery accountId qq))).length ≤
        (qq.page - 1) * qq.pageSize := by
      rw [hlen]
      calc (db.filter (quoteMatchesQuery accountId qq)).length
          ≤ mathCeilDiv (db.filter (quoteMatchesQuery accountId qq)).length qq.pageSize *
              qq.pageSize := hceil
        _ ≤ (qq.page - 1) * qq.pageSize := Nat.mul_le_mul_right _ (by omega)
    rw [List.drop_eq_nil_of_le hoff]
    simp

/-- Witness for C9: an empty store queried at page 2, page size 10. -/
theorem quotesList_pagination_spec_witness :
    (quotesList [] 1 ⟨2, 10, none, none, none⟩).1.totalPages =
      ((quotesList [] 1 ⟨2, 10, none, none, none⟩).1.total + 10 - 1) / 10 ∧
    (quotesList [] 1 ⟨2, 10, none, none, none⟩).2.length ≤ 10 ∧
    ((quotesList [] 1 ⟨2, 10, none, none, none⟩).1.totalPages < 2 →
      (quotesList [] 1 ⟨2, 10, none, none, none⟩).2 = []) :=
  quotesList_pagination_spec [] 1 ⟨2, 10, none, none, none⟩ (by norm_num) (by norm_num)
    (by norm_num)
